import Mathlib

/-!
Verification development for the google-search-mcp repository.

This file gives a shallow embedding, in Lean 4, of the scraping core
implemented in `src/search.ts` (and its supporting type declarations), and
proves properties of that embedding.  Pure computations (timezone bucketing,
result extraction, URL construction) are translated directly; the effectful
orchestration of `performSearch` is embedded as a pure function over an
explicit environment record describing the outcomes of the external world
(browser launch, navigation attempts, page classification, DOM contents,
persistence), together with an explicit effect counter record.  JSON
serialization is modelled by a small JSON value type with an encoder and a
typed decoder.
-/

namespace GoogleSearchMcp

/-! ## Data model (`src/types.ts`) -/

/-- `SearchResult` from `src/types.ts`: `{title, link, snippet}`. -/
structure SearchResult where
  title : String
  link : String
  snippet : String
deriving DecidableEq, Repr

/-- `SearchResponse` from `src/types.ts`.  The implementation always
populates `language` and `region`, so they are modelled as plain strings. -/
structure SearchResponse where
  query : String
  results : List SearchResult
  language : String
  region : String
deriving DecidableEq, Repr

/-- `CommandOptions` from `src/types.ts`. -/
structure CommandOptions where
  limit : Option Nat := none
  timeout : Option Nat := none
  headless : Option Bool := none
  stateFile : Option String := none
  noSaveState : Option Bool := none
  locale : Option String := none
  region : Option String := none
deriving DecidableEq, Repr

/-! ## Fingerprint configuration (`src/search.ts`, `FingerprintConfig`) -/

/-- The `colorScheme` field's value space: `"dark" | "light"`. -/
inductive ColorScheme where
  | dark
  | light
deriving DecidableEq, Repr

/-- The `reducedMotion` field's value space: `"reduce" | "no-preference"`. -/
inductive ReducedMotion where
  | reduce
  | noPreference
deriving DecidableEq, Repr

/-- The `forcedColors` field's value space: `"active" | "none"`. -/
inductive ForcedColors where
  | active
  | none
deriving DecidableEq, Repr

def ColorScheme.toStr : ColorScheme → String
  | .dark => "dark"
  | .light => "light"

def ReducedMotion.toStr : ReducedMotion → String
  | .reduce => "reduce"
  | .noPreference => "no-preference"

def ForcedColors.toStr : ForcedColors → String
  | .active => "active"
  | .none => "none"

/-- `FingerprintConfig` interface from `src/search.ts`. -/
structure FingerprintConfig where
  deviceName : String
  locale : String
  timezoneId : String
  colorScheme : ColorScheme
  reducedMotion : ReducedMotion
  forcedColors : ForcedColors
deriving DecidableEq, Repr

/-- `SavedState` interface from `src/search.ts`: both fields optional. -/
structure SavedState where
  fingerprint : Option FingerprintConfig := none
  googleDomain : Option String := none
deriving DecidableEq, Repr

/-! ## Host machine configuration (`getHostMachineConfig`) -/

/-- The ambient clock observations the source reads via `new Date()`:
`getTimezoneOffset()` (minutes, negative means east of UTC) and
`getHours()` (local wall-clock hour).  Injected explicitly so the
derivation is a pure function, per the spec's determinism note. -/
structure HostClock where
  timezoneOffset : Int
  hour : Nat
deriving DecidableEq, Repr

/-- JavaScript `a || b` on possibly-absent strings: an absent value and the
empty string are both falsy. -/
def jsOr (a : Option String) (b : String) : String :=
  match a with
  | some s => if s = "" then b else s
  | none => b

/-- The timezone bucket table of `getHostMachineConfig` (src/search.ts
lines 35-57), verbatim: an if/else-if chain over the UTC offset in
minutes, with `"Asia/Shanghai"` as the initial (hard default) value. -/
def getTimezoneId (timezoneOffset : Int) : String :=
  if timezoneOffset ≤ -480 ∧ timezoneOffset > -600 then "Asia/Shanghai"
  else if timezoneOffset ≤ -540 then "Asia/Tokyo"
  else if timezoneOffset ≤ -420 ∧ timezoneOffset > -480 then "Asia/Bangkok"
  else if timezoneOffset ≤ 0 ∧ timezoneOffset > -60 then "Europe/London"
  else if timezoneOffset ≤ 60 ∧ timezoneOffset > 0 then "Europe/Berlin"
  else if timezoneOffset ≤ 300 ∧ timezoneOffset > 240 then "America/New_York"
  else "Asia/Shanghai"

/-- `getHostMachineConfig(userLocale?)` from `src/search.ts`.  `envLang`
models `process.env.LANG`; the clock is injected. -/
def getHostMachineConfig (userLocale envLang : Option String)
    (clock : HostClock) : FingerprintConfig :=
  let systemLocale := jsOr userLocale (jsOr envLang "zh-CN")
  let timezoneId := getTimezoneId clock.timezoneOffset
  let colorScheme : ColorScheme :=
    if clock.hour ≥ 19 ∨ clock.hour < 7 then .dark else .light
  { deviceName := "Desktop Chrome"
    locale := systemLocale
    timezoneId := timezoneId
    colorScheme := colorScheme
    reducedMotion := .noPreference
    forcedColors := .none }

/-! ## Result extraction (`performSearch`, the `$$eval` callback) -/

/-- One result-container DOM node as the extraction callback sees it:
the optional text of the first `h3`, the optional `href` of the first
anchor, and the optional text of the first snippet element.  A `none`
stands for a missing element (or a null `textContent`, which the source
collapses to `""` with `|| ""`). -/
structure ResultNode where
  titleEl : Option String
  linkEl : Option String
  snippetEl : Option String
deriving DecidableEq, Repr

/-- The per-node record builder of the `$$eval` callback
(src/search.ts lines 576-588): missing elements become `""`. -/
def extractRecord (el : ResultNode) : SearchResult :=
  { title := el.titleEl.getD ""
    link := el.linkEl.getD ""
    snippet := el.snippetEl.getD "" }

/-- JS truthiness of `item.title && item.link`: both strings non-empty. -/
def recordValid (r : SearchResult) : Bool :=
  r.title != "" && r.link != ""

/-- A node that would survive the filter once mapped. -/
def nodeValid (el : ResultNode) : Bool :=
  recordValid (extractRecord el)

/-- The extraction pipeline of src/search.ts lines 571-592:
`elements.slice(0, maxResults).map(...).filter(item => item.title && item.link)`.
Truncation to `maxResults` comes first, then mapping, then the
validity filter. -/
def extractResults (elements : List ResultNode) (maxResults : Nat) :
    List SearchResult :=
  (((elements.take maxResults).map extractRecord).filter recordValid)

/-- Number of nodes of a list whose extracted title and link are both
non-empty. -/
def countValidNodes (elements : List ResultNode) : Nat :=
  (elements.filter nodeValid).length

/-! ## JSON values and the fingerprint file (`src/search.ts` lines 113-129)

The source reads the fingerprint file with `JSON.parse` and writes it with
`JSON.stringify`.  We model only the JSON fragment the fingerprint traffic
uses (strings and objects); `JSON.parse(JSON.stringify(v))` is the
identity on such values, so the file store holds `Jsonv` values directly. -/

inductive Jsonv where
  | str : String → Jsonv
  | obj : List (String × Jsonv) → Jsonv

/-- First-match key lookup in a JSON object's field list. -/
def jlookup (key : String) : List (String × Jsonv) → Option Jsonv
  | [] => none
  | (k, v) :: rest => if k = key then some v else jlookup key rest

def asStr : Option Jsonv → Option String
  | some (.str s) => some s
  | _ => none

def parseColorScheme (s : String) : Option ColorScheme :=
  if s = "dark" then some .dark
  else if s = "light" then some .light
  else none

def parseReducedMotion (s : String) : Option ReducedMotion :=
  if s = "reduce" then some .reduce
  else if s = "no-preference" then some .noPreference
  else none

def parseForcedColors (s : String) : Option ForcedColors :=
  if s = "active" then some .active
  else if s = "none" then some .none
  else none

/-- `JSON.stringify` of a `FingerprintConfig` value, as a JSON value. -/
def encodeFingerprint (f : FingerprintConfig) : Jsonv :=
  .obj [("deviceName", .str f.deviceName),
        ("locale", .str f.locale),
        ("timezoneId", .str f.timezoneId),
        ("colorScheme", .str f.colorScheme.toStr),
        ("reducedMotion", .str f.reducedMotion.toStr),
        ("forcedColors", .str f.forcedColors.toStr)]

/-- Typed view of a parsed JSON value as a `FingerprintConfig` (the source
assigns the untyped `JSON.parse` result to a `FingerprintConfig`-typed
variable without validation; this decoder is the typed reading of that
assignment). -/
def decodeFingerprint : Jsonv → Option FingerprintConfig
  | .obj fields => do
    let deviceName ← asStr (jlookup "deviceName" fields)
    let locale ← asStr (jlookup "locale" fields)
    let timezoneId ← asStr (jlookup "timezoneId" fields)
    let colorScheme ← (asStr (jlookup "colorScheme" fields)).bind parseColorScheme
    let reducedMotion ←
      (asStr (jlookup "reducedMotion" fields)).bind parseReducedMotion
    let forcedColors ←
      (asStr (jlookup "forcedColors" fields)).bind parseForcedColors
    pure { deviceName, locale, timezoneId, colorScheme, reducedMotion,
           forcedColors }
  | .str _ => none

theorem decodeFingerprint_encodeFingerprint (f : FingerprintConfig) :
    decodeFingerprint (encodeFingerprint f) = some f := by
  rcases f with ⟨d, l, t, cs, rm, fc⟩
  cases cs <;> cases rm <;> cases fc <;> rfl

/-- Result of the fingerprint load-or-create step of `googleSearch`
(src/search.ts lines 113-129): the dynamic value the `fingerprint`
variable ends up holding, the file content after the step, and which
branch ran. -/
structure FingerprintLoadResult where
  value : Jsonv
  store : Option Jsonv
  readFromFile : Bool

/-- The fingerprint load-or-create step: if the fingerprint file exists its
parsed content is used; otherwise a fresh host profile is generated with
`getHostMachineConfig` and written to the file.  `store` is the file
content (`none` = missing file). -/
def loadOrCreateFingerprint (store : Option Jsonv)
    (userLocale envLang : Option String) (clock : HostClock) :
    FingerprintLoadResult :=
  match store with
  | some j => { value := j, store := some j, readFromFile := true }
  | none =>
    let fp := encodeFingerprint (getHostMachineConfig userLocale envLang clock)
    { value := fp, store := some fp, readFromFile := false }

/-! ## Session state load (`src/search.ts` lines 131-140) -/

/-- Outcome of attempting to read the session-state file: the file may be
missing, unreadable/unparseable (`JSON.parse` throws), or hold a valid
state. -/
inductive StateFileRead where
  | missing
  | malformed
  | valid : SavedState → StateFileRead
deriving DecidableEq, Repr

/-- The saved-state load step: `savedState` starts as `{}`; it is replaced
only when the file exists and parses; a read/parse error is caught and
leaves the empty state in place. -/
def loadSavedState : StateFileRead → SavedState
  | .missing => {}
  | .malformed => {}
  | .valid s => s

/-! ## Context fingerprint selection (`src/search.ts` lines 227-266) -/

/-- The fingerprint-derived subset of the browser-context options. -/
structure ContextFingerprint where
  locale : String
  timezoneId : String
  colorScheme : ColorScheme
  reducedMotion : ReducedMotion
  forcedColors : ForcedColors
deriving DecidableEq, Repr

def contextFingerprintOfConfig (c : FingerprintConfig) : ContextFingerprint :=
  { locale := c.locale
    timezoneId := c.timezoneId
    colorScheme := c.colorScheme
    reducedMotion := c.reducedMotion
    forcedColors := c.forcedColors }

/-- The context-option fingerprint selection inside `performSearch`:
`savedState.fingerprint` if present, else a freshly derived host profile. -/
def contextFingerprintFor (savedState : SavedState)
    (userLocale envLang : Option String) (clock : HostClock) :
    ContextFingerprint :=
  match savedState.fingerprint with
  | some fp => contextFingerprintOfConfig fp
  | none =>
    contextFingerprintOfConfig (getHostMachineConfig userLocale envLang clock)

/-- The fingerprint-relevant slice of one `googleSearch` call: load the
fingerprint file (the `fingerprint` variable, never read again), load the
saved state, then select the context fingerprint.  Mirrors src/search.ts
lines 110-140 and 227-266. -/
def googleSearchContextFingerprint (fingerprintFile : Option Jsonv)
    (stateFile : StateFileRead) (userLocale envLang : Option String)
    (clock : HostClock) : ContextFingerprint :=
  let _fingerprint := loadOrCreateFingerprint fingerprintFile userLocale
    envLang clock
  let savedState := loadSavedState stateFile
  contextFingerprintFor savedState userLocale envLang clock

/-! ## Search URL construction (`src/search.ts` lines 142-143, 338-346) -/

/-- Characters `encodeURIComponent` leaves unescaped. -/
def uriUnreserved (c : Char) : Bool :=
  (c ≥ 'A' && c ≤ 'Z') || (c ≥ 'a' && c ≤ 'z') || (c ≥ '0' && c ≤ '9') ||
    c = '-' || c = '_' || c = '.' || c = '!' || c = '~' || c = '*' ||
    c = '(' || c = ')' || c = '\x27'

def hexDigit (n : Nat) : Char :=
  if n < 10 then Char.ofNat (48 + n) else Char.ofNat (55 + n)

def percentByte (b : Nat) : String :=
  ⟨['%', hexDigit (b / 16 % 16), hexDigit (b % 16)]⟩

/-- ECMAScript `encodeURIComponent`: unreserved characters pass through,
all others are percent-encoded per UTF-8 byte. -/
def encodeURIComponent (s : String) : String :=
  s.data.foldl
    (fun acc c =>
      if uriUnreserved c then acc.push c
      else acc ++ String.join ((String.singleton c).toUTF8.toList.map
        (fun b => percentByte b.toNat)))
    ""

/-- Line 339: the navigated domain is the constant `"www.google.com"`. -/
def selectedDomain : String := "www.google.com"

/-- Line 143: `savedState.googleDomain || www.google.<region>` — computed
by `googleSearch` but never used to build the navigated URL. -/
def googleDomainOf (savedState : SavedState) (region : String) : String :=
  jsOr savedState.googleDomain ("www.google." ++ region)

/-- The search URL of src/search.ts lines 344-346.  `region` and
`savedState` are in scope at the construction site; the URL uses neither
(only the constant domain, the query and the locale). -/
def searchUrlOf (query locale region : String) (savedState : SavedState) :
    String :=
  let _googleDomain := googleDomainOf savedState region
  "https://" ++ selectedDomain ++ "/search?q=" ++ encodeURIComponent query ++
    "&hl=" ++ locale

/-! ## The `performSearch` control flow (`src/search.ts` lines 172-665)

`performSearch` drives a browser through launch, context creation,
navigation with retry, challenge classification, query input, result
extraction and state persistence.  We embed it as a pure function of a
request, the mode flags, and an environment record describing what the
external world does at each step; the function returns either a thrown
error (`Except.error`, for exceptions that escape `performSearch`) or the
`SearchResponse`, paired with counters of the observable side effects. -/

/-- The effective request of one `googleSearch` call, after defaulting
(src/search.ts lines 92-100). -/
structure Req where
  query : String
  limit : Nat
  locale : String
  region : String
  noSaveState : Bool
deriving DecidableEq, Repr

/-- Outcome of one `page.goto` attempt: an HTTP-ok response, a non-ok
response, or a thrown navigation error. -/
inductive NavAttempt where
  | ok
  | notOk
  | navErr
deriving DecidableEq, Repr

/-- Environment of one `performSearch` invocation: what the external world
does at each step of that invocation. -/
structure RunEnv where
  /-- `chromium.launch` throws (only reachable when no browser was
  supplied). -/
  launchFails : Bool
  /-- context/page creation (`newContext` .. `addInitScript`) throws;
  these calls sit before the `try` block. -/
  setupFails : Bool
  /-- outcome of the i-th `page.goto` attempt. -/
  nav : Nat → NavAttempt
  /-- the landed URL (or response URL) matches a challenge-page pattern. -/
  blockedPage : Bool
  /-- the landed URL already encodes the query (`/search` and `q=`). -/
  alreadyOnResults : Bool
  /-- some search-input selector matches. -/
  searchBoxFound : Bool
  /-- some result-container selector appears in time. -/
  resultContainerFound : Bool
  /-- the result-container nodes of the loaded page, in document order. -/
  nodes : List ResultNode
  /-- writing the browser state / fingerprint file throws. -/
  saveFails : Bool

/-- Counters of the observable side effects of a run.  `headlessLaunches`
and `headedLaunches` count `chromium.launch` calls (attempts) by mode;
the `...CloseCalls` fields count `browser.close()` calls on internally
launched and caller-supplied browsers respectively. -/
structure Effects where
  navAttempts : Nat := 0
  backoffWaits : Nat := 0
  pageCloses : Nat := 0
  contextCloses : Nat := 0
  ownBrowserCloseCalls : Nat := 0
  providedBrowserCloseCalls : Nat := 0
  /-- `browser.close()` calls made by the challenge handler itself right
  before restarting headed (line 417); every such call is also counted in
  `ownBrowserCloseCalls`. -/
  escalationBrowserCloses : Nat := 0
  escalations : Nat := 0
  headlessLaunches : Nat := 0
  headedLaunches : Nat := 0
  saveErrorsLogged : Nat := 0
deriving DecidableEq, Repr

def Effects.add (a b : Effects) : Effects :=
  { navAttempts := a.navAttempts + b.navAttempts
    backoffWaits := a.backoffWaits + b.backoffWaits
    pageCloses := a.pageCloses + b.pageCloses
    contextCloses := a.contextCloses + b.contextCloses
    ownBrowserCloseCalls := a.ownBrowserCloseCalls + b.ownBrowserCloseCalls
    providedBrowserCloseCalls :=
      a.providedBrowserCloseCalls + b.providedBrowserCloseCalls
    escalationBrowserCloses :=
      a.escalationBrowserCloses + b.escalationBrowserCloses
    escalations := a.escalations + b.escalations
    headlessLaunches := a.headlessLaunches + b.headlessLaunches
    headedLaunches := a.headedLaunches + b.headedLaunches
    saveErrorsLogged := a.saveErrorsLogged + b.saveErrorsLogged }

instance : Add Effects := ⟨Effects.add⟩

@[simp] theorem Effects.add_navAttempts (a b : Effects) :
    (a + b).navAttempts = a.navAttempts + b.navAttempts := rfl
@[simp] theorem Effects.add_backoffWaits (a b : Effects) :
    (a + b).backoffWaits = a.backoffWaits + b.backoffWaits := rfl
@[simp] theorem Effects.add_pageCloses (a b : Effects) :
    (a + b).pageCloses = a.pageCloses + b.pageCloses := rfl
@[simp] theorem Effects.add_contextCloses (a b : Effects) :
    (a + b).contextCloses = a.contextCloses + b.contextCloses := rfl
@[simp] theorem Effects.add_ownBrowserCloseCalls (a b : Effects) :
    (a + b).ownBrowserCloseCalls
      = a.ownBrowserCloseCalls + b.ownBrowserCloseCalls := rfl
@[simp] theorem Effects.add_providedBrowserCloseCalls (a b : Effects) :
    (a + b).providedBrowserCloseCalls
      = a.providedBrowserCloseCalls + b.providedBrowserCloseCalls := rfl
@[simp] theorem Effects.add_escalationBrowserCloses (a b : Effects) :
    (a + b).escalationBrowserCloses
      = a.escalationBrowserCloses + b.escalationBrowserCloses := rfl
@[simp] theorem Effects.add_escalations (a b : Effects) :
    (a + b).escalations = a.escalations + b.escalations := rfl
@[simp] theorem Effects.add_headlessLaunches (a b : Effects) :
    (a + b).headlessLaunches = a.headlessLaunches + b.headlessLaunches := rfl
@[simp] theorem Effects.add_headedLaunches (a b : Effects) :
    (a + b).headedLaunches = a.headedLaunches + b.headedLaunches := rfl
@[simp] theorem Effects.add_saveErrorsLogged (a b : Effects) :
    (a + b).saveErrorsLogged = a.saveErrorsLogged + b.saveErrorsLogged := rfl

/-- Result of the navigation retry loop (src/search.ts lines 351-390). -/
structure NavLoopResult where
  success : Bool
  attempts : Nat
  waits : Nat
deriving DecidableEq, Repr

/-- The body of the `while (retryCount < maxRetries)` loop: each iteration
makes one `page.goto` attempt; an ok response breaks out; otherwise a
fixed 2-second wait precedes the retry-count increment.  `fuel` is the
number of remaining allowed attempts, `i` the attempts already made. -/
def navLoopAux (nav : Nat → NavAttempt) : Nat → Nat → NavLoopResult
  | 0, i => { success := false, attempts := i, waits := i }
  | fuel + 1, i =>
    match nav i with
    | .ok => { success := true, attempts := i + 1, waits := i }
    | .notOk => navLoopAux nav fuel (i + 1)
    | .navErr => navLoopAux nav fuel (i + 1)

/-- The navigation retry loop with `maxRetries = 3`. -/
def navLoop (nav : Nat → NavAttempt) : NavLoopResult :=
  navLoopAux nav 3 0

/-- Messages of the errors thrown inside the `try` block (verbatim from
the source) and of the pre-`try` failures (abstracted). -/
def navExhaustedMsg : String :=
  "Unable to load Google search page after 3 retries"

def captchaProvidedMsg : String :=
  "Detected CAPTCHA page, try headed mode or manual verification"

def captchaInteractiveMsg : String :=
  "Detected CAPTCHA page, manual verification required"

def noSearchBoxMsg : String := "Could not find search box"

def noResultContainerMsg : String := "Could not find search result element"

def launchFailedMsg : String := "Browser launch failed"

def setupFailedMsg : String := "Browser context creation failed"

/-- The single synthetic failure record of the `catch` block
(src/search.ts lines 648-659). -/
def syntheticFailureResponse (req : Req) (msg : String) : SearchResponse :=
  { query := req.query
    results := [{ title := "Search failed", link := ""
                  snippet := "Unable to complete search, error: " ++ msg }]
    language := req.locale
    region := req.region }

/-- Effects of the `catch` block's resource cleanup: it closes the browser
only when it was launched internally. -/
def closeInCatch (provided : Bool) : Effects :=
  if provided then {} else { ownBrowserCloseCalls := 1 }

/-- The `catch` wrapper around the `try` body: an error becomes a
successful-shaped response carrying the message in the snippet, after the
cleanup close; a normal response passes through. -/
def catchToResponse (req : Req) (provided : Bool)
    (r : Except String SearchResponse) (eff : Effects) :
    Except String SearchResponse × Effects :=
  match r with
  | .ok resp => (.ok resp, eff)
  | .error msg =>
    (.ok (syntheticFailureResponse req msg), eff + closeInCatch provided)

/-- The post-navigation stage: query input (skipped when the URL already
encodes the query), result-container wait, extraction, and the inner
state-save `try`/`catch` whose failure is only logged. -/
def searchStage (req : Req) (env : RunEnv) :
    Except String (List SearchResult) × Effects :=
  if !env.alreadyOnResults && !env.searchBoxFound then
    (.error noSearchBoxMsg, {})
  else if !env.resultContainerFound then
    (.error noResultContainerMsg, {})
  else
    let results := extractResults env.nodes req.limit
    if !req.noSaveState && env.saveFails then
      (.ok results, { saveErrorsLogged := 1 })
    else
      (.ok results, {})

/-- `chromium.launch` effect counter, by mode. -/
def launchEffects (headless : Bool) : Effects :=
  if headless then { headlessLaunches := 1 } else { headedLaunches := 1 }

/-- One `performSearch(headless)` invocation.  `escal` is the (already
computed) result of the recursive `performSearch(false)` call; it is
consulted only on the headless-challenge path with an internally launched
browser, mirroring `return performSearch(false)` at line 418.  Errors
thrown before the `try` block (`chromium.launch`, context and page
creation) escape; errors inside it are converted by `catchToResponse`. -/
def performSearchStep (req : Req) (headless provided : Bool) (env : RunEnv)
    (escal : Except String SearchResponse × Effects) :
    Except String SearchResponse × Effects :=
  if !provided && env.launchFails then
    (.error launchFailedMsg, launchEffects headless)
  else
    let preEff := if provided then ({} : Effects) else launchEffects headless
    if env.setupFails then
      (.error setupFailedMsg, preEff)
    else
      let nr := navLoop env.nav
      let eff0 := preEff +
        { navAttempts := nr.attempts, backoffWaits := nr.waits }
      if !nr.success then
        catchToResponse req provided (.error navExhaustedMsg) eff0
      else if env.blockedPage then
        if headless then
          let closeEff : Effects := { pageCloses := 1, contextCloses := 1 }
          if !provided then
            catchToResponse req provided escal.1
              (eff0 + closeEff +
                { ownBrowserCloseCalls := 1, escalationBrowserCloses := 1
                  escalations := 1 } + escal.2)
          else
            catchToResponse req provided (.error captchaProvidedMsg)
              (eff0 + closeEff)
        else
          catchToResponse req provided (.error captchaInteractiveMsg) eff0
      else
        match searchStage req env with
        | (.ok results, stageEff) =>
          let closeEff : Effects :=
            if provided then {} else { ownBrowserCloseCalls := 1 }
          (.ok { query := req.query, results := results,
                 language := req.locale, region := req.region },
            eff0 + stageEff + closeEff)
        | (.error msg, stageEff) =>
          catchToResponse req provided (.error msg) (eff0 + stageEff)

/-- A placeholder escalation result for the non-headless invocation, whose
body never consults it (the escalation branch requires `headless`). -/
def deadEscalation : Except String SearchResponse × Effects :=
  (.error "unreachable escalation result", {})

/-- `performSearch(false)`: a headed invocation, which never escalates. -/
def performSearchHeaded (req : Req) (provided : Bool) (env : RunEnv) :
    Except String SearchResponse × Effects :=
  performSearchStep req false provided env deadEscalation

/-- A full `performSearch(headless)` run.  A headless run that hits a
challenge page with an internally launched browser re-runs headed against
`envEscal` (the world of the second, interactive invocation); the headed
run never recurses.  The recursive call always has no caller-supplied
browser, because the escalation branch is guarded by
`!browserWasProvided`. -/
def performSearchRun (req : Req) (headless provided : Bool)
    (env envEscal : RunEnv) : Except String SearchResponse × Effects :=
  if headless then
    performSearchStep req true provided env
      (performSearchHeaded req false envEscal)
  else
    performSearchHeaded req provided env

/-- Defaulting of `googleSearch`'s options (src/search.ts lines 92-100). -/
def reqOf (query : String) (options : CommandOptions) : Req :=
  { query := query
    limit := options.limit.getD 10
    locale := options.locale.getD "zh-CN"
    region := options.region.getD "cn"
    noSaveState := options.noSaveState.getD false }

/-- Line 146: `let useHeadless = true;` — the passed `headless` option is
ignored and the first attempt always runs headless. -/
def useHeadlessOf (_options : CommandOptions) : Bool := true

/-- `googleSearch`'s final step (line 664): run `performSearch` with the
computed mode.  `provided` records whether `existingBrowser` was given. -/
def googleSearchRun (query : String) (options : CommandOptions)
    (provided : Bool) (env envEscal : RunEnv) :
    Except String SearchResponse × Effects :=
  performSearchRun (reqOf query options) (useHeadlessOf options) provided
    env envEscal

/-! ## Concrete demonstration values -/

/-- The scenario request of the spec: query `"weather today"`, limit 5,
default locale and region. -/
def demoReq : Req :=
  { query := "weather today", limit := 5, locale := "zh-CN", region := "cn"
    noSaveState := false }

def demoGoodNode (i : Nat) : ResultNode :=
  { titleEl := some ("title" ++ toString i)
    linkEl := some ("https://example.com/" ++ toString i)
    snippetEl := some "snippet" }

/-- A container node whose `h3` has empty text: discarded by the filter. -/
def demoEmptyTitleNode : ResultNode :=
  { titleEl := some "", linkEl := some "https://example.com/x"
    snippetEl := some "snippet" }

/-- A successful world: first navigation attempt ok, already on the result
page, container found, eight valid result nodes. -/
def demoEnvOk : RunEnv :=
  { launchFails := false, setupFails := false, nav := fun _ => .ok
    blockedPage := false, alreadyOnResults := true, searchBoxFound := true
    resultContainerFound := true, nodes := (List.range 8).map demoGoodNode
    saveFails := false }

/-- A world where every navigation attempt returns a non-ok response. -/
def demoEnvNavFail : RunEnv := { demoEnvOk with nav := fun _ => .notOk }

theorem filter_map_length {α β : Type} (f : α → β) (p : β → Bool)
    (l : List α) :
    ((l.map f).filter p).length = (l.filter (fun a => p (f a))).length := by
  induction l with
  | nil => rfl
  | cons a t ih =>
    by_cases h : p (f a) <;> simp [List.filter, h, ih]

theorem navLoopAux_allFail (nav : Nat → NavAttempt)
    (h : ∀ i, nav i ≠ .ok) :
    ∀ fuel i, navLoopAux nav fuel i =
      { success := false, attempts := fuel + i, waits := fuel + i } := by
  intro fuel
  induction fuel with
  | zero => intro i; simp [navLoopAux]
  | succ n ih =>
    intro i
    have := h i
    unfold navLoopAux
    have harith : n + (i + 1) = n + 1 + i := by omega
    cases hn : nav i with
    | ok => exact absurd hn (h i)
    | notOk => rw [ih (i + 1), harith]
    | navErr => rw [ih (i + 1), harith]

theorem navLoop_allFail (nav : Nat → NavAttempt) (h : ∀ i, nav i ≠ .ok) :
    navLoop nav = { success := false, attempts := 3, waits := 3 } := by
  simpa [navLoop] using navLoopAux_allFail nav h 3 0

/-! ## Claim C1 — result extraction -/

/-- C1 counterexample: the page `[emptyTitle, good]` contains exactly one
node with non-empty title and link, which is not more than the limit 1,
yet the extraction emits zero records: the source truncates with
`slice(0, maxResults)` before filtering, so the invalid leading node
consumes the whole window. -/
theorem extraction_count_counterexample :
    countValidNodes [demoEmptyTitleNode, demoGoodNode 0] = 1
    ∧ countValidNodes [demoEmptyTitleNode, demoGoodNode 0] ≤ 1
    ∧ (extractResults [demoEmptyTitleNode, demoGoodNode 0] 1).length = 0 := by
  decide

/-- C1 (amended): the extraction emits only whole records whose title and
link are both non-empty, preserves document order without deduplication or
re-sorting (its output is a sublist of the valid records of the full
page), never emits more than `limit` records, and its count equals the
number of valid nodes among the first `limit` container nodes — hence,
when the page contains at most `limit` container nodes in total, the
count equals the number of nodes with non-empty title and link. -/
theorem extraction_spec (elements : List ResultNode) (limit : Nat) :
    (∀ r ∈ extractResults elements limit, r.title ≠ "" ∧ r.link ≠ "")
    ∧ (extractResults elements limit).Sublist
        ((elements.map extractRecord).filter recordValid)
    ∧ (extractResults elements limit).length ≤ limit
    ∧ (extractResults elements limit).length
        = countValidNodes (elements.take limit)
    ∧ (elements.length ≤ limit →
        (extractResults elements limit).length = countValidNodes elements) := by
  refine ⟨?_, ?_, ?_, ?_, ?_⟩
  · intro r hr
    have hv : recordValid r = true := (List.mem_filter.mp hr).2
    simp only [recordValid, Bool.and_eq_true, bne_iff_ne, ne_eq] at hv
    exact hv
  · exact ((elements.take_sublist limit).map extractRecord).filter recordValid
  · calc (extractResults elements limit).length
        ≤ ((elements.take limit).map extractRecord).length :=
          List.length_filter_le _ _
      _ = (elements.take limit).length := List.length_map _ _
      _ ≤ limit := by simp [List.length_take]
  · unfold extractResults countValidNodes
    exact filter_map_length extractRecord recordValid (elements.take limit)
  · intro hlen
    unfold extractResults countValidNodes
    rw [List.take_of_length_le hlen]
    exact filter_map_length extractRecord recordValid elements

/-- Witness for the conditional part of `extraction_spec` at a concrete
page of two nodes and limit 5. -/
theorem extraction_spec_witness :
    (extractResults [demoEmptyTitleNode, demoGoodNode 0] 5).length
      = countValidNodes [demoEmptyTitleNode, demoGoodNode 0] :=
  (extraction_spec [demoEmptyTitleNode, demoGoodNode 0] 5).2.2.2.2
    (by decide)

/-! ## Claim C7 — timezone bucket mapping -/

/-- The six timezone identifiers of the bucket table. -/
def sixTimezones : List String :=
  ["Asia/Shanghai", "Asia/Tokyo", "Asia/Bangkok", "Europe/London",
   "Europe/Berlin", "America/New_York"]

/-- Disjunction of the six guard conditions of the if/else-if chain. -/
def inAnyTimezoneBucket (o : Int) : Prop :=
  (o ≤ -480 ∧ o > -600) ∨ o ≤ -540 ∨ (o ≤ -420 ∧ o > -480)
    ∨ (o ≤ 0 ∧ o > -60) ∨ (o ≤ 60 ∧ o > 0) ∨ (o ≤ 300 ∧ o > 240)

instance (o : Int) : Decidable (inAnyTimezoneBucket o) := by
  unfold inAnyTimezoneBucket; infer_instance

/-- C7: the timezone bucket mapping is total — every offset (in
particular every integer in [-720, 720]) is assigned exactly one of the
six named identifiers; an offset matching no bucket guard falls back to
the hard default `"Asia/Shanghai"`; and the bucket bounds behave
inclusively on one edge and exclusively on the other, as checked at each
boundary value. -/
theorem timezone_bucketing_total (o : Int) :
    getTimezoneId o ∈ sixTimezones
    ∧ (-720 ≤ o → o ≤ 720 → getTimezoneId o ∈ sixTimezones)
    ∧ (¬inAnyTimezoneBucket o → getTimezoneId o = "Asia/Shanghai")
    ∧ (getTimezoneId (-480) = "Asia/Shanghai"
       ∧ getTimezoneId (-599) = "Asia/Shanghai"
       ∧ getTimezoneId (-600) = "Asia/Tokyo"
       ∧ getTimezoneId (-720) = "Asia/Tokyo"
       ∧ getTimezoneId (-420) = "Asia/Bangkok"
       ∧ getTimezoneId (-479) = "Asia/Bangkok"
       ∧ getTimezoneId 0 = "Europe/London"
       ∧ getTimezoneId (-59) = "Europe/London"
       ∧ getTimezoneId (-60) = "Asia/Shanghai"
       ∧ getTimezoneId 1 = "Europe/Berlin"
       ∧ getTimezoneId 60 = "Europe/Berlin"
       ∧ getTimezoneId 61 = "Asia/Shanghai"
       ∧ getTimezoneId 240 = "Asia/Shanghai"
       ∧ getTimezoneId 241 = "America/New_York"
       ∧ getTimezoneId 300 = "America/New_York"
       ∧ getTimezoneId 301 = "Asia/Shanghai") := by
  have hmem : getTimezoneId o ∈ sixTimezones := by
    unfold getTimezoneId sixTimezones
    split_ifs <;> simp
  have hbound : getTimezoneId (-480) = "Asia/Shanghai"
      ∧ getTimezoneId (-599) = "Asia/Shanghai"
      ∧ getTimezoneId (-600) = "Asia/Tokyo"
      ∧ getTimezoneId (-720) = "Asia/Tokyo"
      ∧ getTimezoneId (-420) = "Asia/Bangkok"
      ∧ getTimezoneId (-479) = "Asia/Bangkok"
      ∧ getTimezoneId 0 = "Europe/London"
      ∧ getTimezoneId (-59) = "Europe/London"
      ∧ getTimezoneId (-60) = "Asia/Shanghai"
      ∧ getTimezoneId 1 = "Europe/Berlin"
      ∧ getTimezoneId 60 = "Europe/Berlin"
      ∧ getTimezoneId 61 = "Asia/Shanghai"
      ∧ getTimezoneId 240 = "Asia/Shanghai"
      ∧ getTimezoneId 241 = "America/New_York"
      ∧ getTimezoneId 300 = "America/New_York"
      ∧ getTimezoneId 301 = "Asia/Shanghai" := by
    refine ⟨?_, ?_, ?_, ?_, ?_, ?_, ?_, ?_, ?_, ?_, ?_, ?_, ?_, ?_, ?_, ?_⟩
      <;> decide
  refine ⟨hmem, fun _ _ => hmem, ?_, hbound⟩
  intro hno
  unfold getTimezoneId
  split_ifs with h1 h2 h3 h4 h5 h6
  · exact absurd (Or.inl h1) hno
  · exact absurd (Or.inr (Or.inl h2)) hno
  · exact absurd (Or.inr (Or.inr (Or.inl h3))) hno
  · exact absurd (Or.inr (Or.inr (Or.inr (Or.inl h4)))) hno
  · exact absurd (Or.inr (Or.inr (Or.inr (Or.inr (Or.inl h5))))) hno
  · exact absurd (Or.inr (Or.inr (Or.inr (Or.inr (Or.inr h6))))) hno
  · rfl

/-- Witness for `timezone_bucketing_total`: the in-range part at offset
480 and the fallback part at the unmatched offset 100 (UTC-1:40, in no
bucket). -/
theorem timezone_bucketing_total_witness :
    getTimezoneId 480 ∈ sixTimezones
    ∧ getTimezoneId 100 = "Asia/Shanghai" :=
  ⟨(timezone_bucketing_total 480).2.1 (by decide) (by decide),
   (timezone_bucketing_total 100).2.2.1 (by decide)⟩

/-! ## Claim C4 — navigation retry exhaustion -/

/-- C4: when no navigation attempt yields an HTTP-ok response, exactly 3
attempts are made with a fixed 2-second wait after each failed attempt,
the run fails with the transient-load error (converted by the catch block
into the synthetic failure response), an internally launched browser is
closed exactly once, a caller-supplied browser zero times, and no
escalation occurs. -/
theorem navigation_retry_exhaustion (req : Req) (headless provided : Bool)
    (env envEscal : RunEnv)
    (hL : (!provided && env.launchFails) = false)
    (hS : env.setupFails = false)
    (hnav : ∀ i, env.nav i ≠ .ok) :
    (performSearchRun req headless provided env envEscal).1
        = .ok (syntheticFailureResponse req navExhaustedMsg)
    ∧ (performSearchRun req headless provided env envEscal).2.navAttempts = 3
    ∧ (performSearchRun req headless provided env envEscal).2.backoffWaits = 3
    ∧ (performSearchRun req headless provided env envEscal).2.ownBrowserCloseCalls
        = (if provided then 0 else 1)
    ∧ (performSearchRun req headless provided env
        envEscal).2.providedBrowserCloseCalls = 0
    ∧ (performSearchRun req headless provided env envEscal).2.escalations
        = 0 := by
  have hN := navLoop_allFail env.nav hnav
  cases headless <;> cases provided <;>
    simp_all [performSearchRun, performSearchHeaded, performSearchStep,
      catchToResponse, closeInCatch, launchEffects]

/-- Witness for `navigation_retry_exhaustion`: an internally launched
headless run whose three navigation attempts all return non-ok. -/
theorem navigation_retry_exhaustion_witness :
    (performSearchRun demoReq true false demoEnvNavFail demoEnvNavFail).1
        = .ok (syntheticFailureResponse demoReq navExhaustedMsg)
    ∧ (performSearchRun demoReq true false demoEnvNavFail
        demoEnvNavFail).2.navAttempts = 3
    ∧ (performSearchRun demoReq true false demoEnvNavFail
        demoEnvNavFail).2.backoffWaits = 3
    ∧ (performSearchRun demoReq true false demoEnvNavFail
        demoEnvNavFail).2.ownBrowserCloseCalls = 1
    ∧ (performSearchRun demoReq true false demoEnvNavFail
        demoEnvNavFail).2.providedBrowserCloseCalls = 0
    ∧ (performSearchRun demoReq true false demoEnvNavFail
        demoEnvNavFail).2.escalations = 0 :=
  navigation_retry_exhaustion demoReq true false demoEnvNavFail
    demoEnvNavFail rfl rfl (fun _i h => nomatch h)

/-! ## Claim C6 — fingerprint manager stability -/

/-- C6: starting from a missing fingerprint file, two invocations of the
fingerprint load-or-create step with the same injected clock yield the
same profile value both times; the first invocation generates and
persists it, the second reads the persisted file (it does not
regenerate), and the persisted value decodes to exactly the host-derived
profile. -/
theorem fingerprint_manager_stable (userLocale envLang : Option String)
    (clock : HostClock) :
    (loadOrCreateFingerprint none userLocale envLang clock).readFromFile
        = false
    ∧ (loadOrCreateFingerprint
        (loadOrCreateFingerprint none userLocale envLang clock).store
        userLocale envLang clock).readFromFile = true
    ∧ (loadOrCreateFingerprint
        (loadOrCreateFingerprint none userLocale envLang clock).store
        userLocale envLang clock).value
        = (loadOrCreateFingerprint none userLocale envLang clock).value
    ∧ decodeFingerprint
        (loadOrCreateFingerprint
          (loadOrCreateFingerprint none userLocale envLang clock).store
          userLocale envLang clock).value
        = some (getHostMachineConfig userLocale envLang clock) := by
  refine ⟨rfl, rfl, rfl, ?_⟩
  simpa [loadOrCreateFingerprint] using
    decodeFingerprint_encodeFingerprint
      (getHostMachineConfig userLocale envLang clock)


/-! ## Characterization lemmas for the search flow -/

theorem searchStage_eff_cases (req : Req) (env : RunEnv) :
    (searchStage req env).2 = ({} : Effects)
    ∨ (searchStage req env).2 = ({ saveErrorsLogged := 1 } : Effects) := by
  unfold searchStage
  split_ifs <;> simp

theorem searchStage_fst_saveFails (req : Req) (env : RunEnv) (b : Bool) :
    (searchStage req { env with saveFails := b }).1
      = (searchStage req env).1 := by
  unfold searchStage
  split_ifs <;> simp_all

theorem headed_effects (req : Req) (p : Bool) (env : RunEnv) :
    (performSearchHeaded req p env).2.escalations = 0
    ∧ (performSearchHeaded req p env).2.pageCloses = 0
    ∧ (performSearchHeaded req p env).2.contextCloses = 0
    ∧ (performSearchHeaded req p env).2.providedBrowserCloseCalls = 0
    ∧ (performSearchHeaded req p env).2.headedLaunches
        = (if p then 0 else 1)
    ∧ (performSearchHeaded req p env).2.headlessLaunches = 0
    ∧ (performSearchHeaded req p env).2.escalationBrowserCloses = 0 := by
  simp only [performSearchHeaded, performSearchStep]
  split_ifs
  all_goals first
    | (exfalso; assumption)
    | (simp_all [catchToResponse, closeInCatch, launchEffects]; done)
    | (rcases hss : searchStage req env with ⟨r, e⟩
       have hse := searchStage_eff_cases req env
       rw [hss] at hse
       rcases r with msg | results <;>
         rcases hse with he | he <;>
         simp_all [catchToResponse, closeInCatch, launchEffects])

theorem headed_echo (req : Req) (p : Bool) (env : RunEnv)
    (resp : SearchResponse)
    (h : (performSearchHeaded req p env).1 = .ok resp) :
    resp.query = req.query ∧ resp.language = req.locale
      ∧ resp.region = req.region := by
  simp only [performSearchHeaded, performSearchStep] at h
  revert h
  split_ifs
  all_goals intro h
  all_goals first
    | exact absurd h (by simp)
    | (exfalso; assumption)
    | (simp only [catchToResponse, Except.ok.injEq] at h
       subst h
       exact ⟨rfl, rfl, rfl⟩)
    | (rcases hss : searchStage req env with ⟨r, e⟩
       rw [hss] at h
       rcases r with msg | results <;>
         simp only [catchToResponse, Except.ok.injEq] at h <;>
         (subst h; exact ⟨rfl, rfl, rfl⟩))

theorem headed_fst_saveFails (req : Req) (p : Bool) (env : RunEnv)
    (b : Bool) :
    (performSearchHeaded req p { env with saveFails := b }).1
      = (performSearchHeaded req p env).1 := by
  rcases env with ⟨lf, sf, nav, bp, aor, sbf, rcf, nodes, svf⟩
  simp only [performSearchHeaded, performSearchStep, searchStage]
  split_ifs <;> rfl

theorem run_echo (req : Req) (headless provided : Bool)
    (env envEscal : RunEnv) (resp : SearchResponse)
    (h : (performSearchRun req headless provided env envEscal).1
      = .ok resp) :
    resp.query = req.query ∧ resp.language = req.locale
      ∧ resp.region = req.region := by
  cases headless
  case false =>
    exact headed_echo req provided env resp h
  case true =>
    simp only [performSearchRun, if_true] at h
    revert h
    simp only [performSearchStep]
    split_ifs
    all_goals intro h
    all_goals first
      | exact absurd h (by simp)
      | (exfalso; assumption)
      | (simp only [catchToResponse, Except.ok.injEq] at h
         subst h
         exact ⟨rfl, rfl, rfl⟩)
      | (rcases hesc : (performSearchHeaded req false envEscal).1 with
          msg | resp2
         · rw [hesc] at h
           simp only [catchToResponse, Except.ok.injEq] at h
           subst h
           exact ⟨rfl, rfl, rfl⟩
         · rw [hesc] at h
           simp only [catchToResponse, Except.ok.injEq] at h
           subst h
           exact headed_echo req false envEscal resp2 hesc)
      | (rcases hss : searchStage req env with ⟨r, e⟩
         rw [hss] at h
         rcases r with msg | results <;>
           simp only [catchToResponse, Except.ok.injEq] at h <;>
           (subst h; exact ⟨rfl, rfl, rfl⟩))

/-! ## Claim C2 — orchestrator error containment -/

/-- C8: loading a missing or malformed session-state file yields the empty
state without raising, and a failure to write the state or fingerprint
file at the end of a run leaves the returned result of the search flow
unchanged (the save step only logs). -/
theorem persistence_errors_nonfatal :
    loadSavedState .missing = ({} : SavedState)
    ∧ loadSavedState .malformed = ({} : SavedState)
    ∧ ∀ (req : Req) (headless provided : Bool) (env envEscal : RunEnv)
        (b1 b2 : Bool),
        (performSearchRun req headless provided
            { env with saveFails := b1 }
            { envEscal with saveFails := b2 }).1
          = (performSearchRun req headless provided env envEscal).1 := by
  refine ⟨rfl, rfl, ?_⟩
  intro req headless provided env envEscal b1 b2
  cases headless
  case false => exact headed_fst_saveFails req provided env b1
  case true =>
    have hesc : (performSearchHeaded req false
          { envEscal with saveFails := b2 }).1
        = (performSearchHeaded req false envEscal).1 :=
      headed_fst_saveFails req false envEscal b2
    rcases env with ⟨lf, sf, nav, bp, aor, sbf, rcf, nodes, svf⟩
    simp only [performSearchRun, if_true, performSearchStep, searchStage]
    split_ifs
    all_goals first
      | rfl
      | (exfalso; assumption)
      | (rw [hesc]
         rcases hs2 : (performSearchHeaded req false envEscal).1 with
           msg | resp2 <;> simp [catchToResponse])

/-- A headless-first run performs a headed browser launch only through the
challenge escalation: its headed launch count never exceeds its
escalation count. -/
theorem headless_run_headed_le (req : Req) (p : Bool)
    (env envEscal : RunEnv) :
    (performSearchRun req true p env envEscal).2.headedLaunches
      ≤ (performSearchRun req true p env envEscal).2.escalations := by
  obtain ⟨he1, _, _, _, he5, he6⟩ := headed_effects req false envEscal
  cases p <;>
    simp only [performSearchRun, if_true, performSearchStep] <;>
    split_ifs <;>
    first
      | (exfalso; assumption)
      | (simp [catchToResponse, closeInCatch, launchEffects]; done)
      | (rcases hesc : (performSearchHeaded req false envEscal).1 with
          msg | resp2 <;>
         simp [catchToResponse, closeInCatch, launchEffects, hesc, he1,
           he5] <;>
         done)
      | (rcases hss : searchStage req env with ⟨r, e⟩
         have hse := searchStage_eff_cases req env
         rw [hss] at hse
         rcases r with msg | results <;> rcases hse with he | he <;>
           simp_all [catchToResponse, closeInCatch, launchEffects])

/-! ## Claim C5 — fixed search domain, region only echoed -/

/-- C5: the navigated search URL is always
`https://www.google.com/search?q=<url-encoded query>&hl=<locale>` with the
fixed global domain — the region (and the saved-state domain derived from
it) never influences the URL, and the region value only appears as the
`region` metadata field echoed in every returned response. -/
theorem search_url_fixed_domain (query locale region region' : String)
    (s s' : SavedState) (req : Req) (headless provided : Bool)
    (env envEscal : RunEnv) :
    searchUrlOf query locale region s = searchUrlOf query locale region' s'
    ∧ searchUrlOf query locale region s
        = "https://www.google.com/search?q=" ++ encodeURIComponent query
            ++ "&hl=" ++ locale
    ∧ selectedDomain = "www.google.com"
    ∧ (∀ resp,
        (performSearchRun req headless provided env envEscal).1 = .ok resp →
        resp.region = req.region ∧ resp.query = req.query
          ∧ resp.language = req.locale) := by
  refine ⟨rfl, rfl, rfl, ?_⟩
  intro resp h
  obtain ⟨hq, hl, hr⟩ := run_echo req headless provided env envEscal resp h
  exact ⟨hr, hq, hl⟩

/-- Witness for the response-echo part of `search_url_fixed_domain` at a
concrete failed run. -/
theorem search_url_fixed_domain_witness :
    (syntheticFailureResponse demoReq navExhaustedMsg).region
        = demoReq.region
    ∧ (syntheticFailureResponse demoReq navExhaustedMsg).query
        = demoReq.query
    ∧ (syntheticFailureResponse demoReq navExhaustedMsg).language
        = demoReq.locale :=
  (search_url_fixed_domain "weather today" "zh-CN" "cn" "de" {} {} demoReq
    true false demoEnvNavFail demoEnvNavFail).2.2.2
    (syntheticFailureResponse demoReq navExhaustedMsg) rfl

/-! ## Claim C9 — the standalone fingerprint file is never applied -/

/-- C9: the fingerprint settings applied to the browser context come from
the fingerprint embedded in the loaded session state when present and
otherwise from a freshly derived host profile; the content of the
standalone fingerprint file (the `fingerprint` variable) has no effect on
the selected context fingerprint. -/
theorem contextFingerprint_ignores_fingerprintFile
    (fpFile fpFile' : Option Jsonv) (stateFile : StateFileRead)
    (userLocale envLang : Option String) (clock : HostClock) :
    googleSearchContextFingerprint fpFile stateFile userLocale envLang clock
      = googleSearchContextFingerprint fpFile' stateFile userLocale envLang
          clock
    ∧ (∀ fp, (loadSavedState stateFile).fingerprint = some fp →
        googleSearchContextFingerprint fpFile stateFile userLocale envLang
            clock
          = contextFingerprintOfConfig fp)
    ∧ ((loadSavedState stateFile).fingerprint = none →
        googleSearchContextFingerprint fpFile stateFile userLocale envLang
            clock
          = contextFingerprintOfConfig
              (getHostMachineConfig userLocale envLang clock)) := by
  refine ⟨rfl, ?_, ?_⟩
  · intro fp hfp
    simp [googleSearchContextFingerprint, contextFingerprintFor, hfp]
  · intro hfp
    simp [googleSearchContextFingerprint, contextFingerprintFor, hfp]

def demoFingerprint : FingerprintConfig :=
  { deviceName := "Desktop Chrome", locale := "en-US"
    timezoneId := "Europe/London", colorScheme := .light
    reducedMotion := .noPreference, forcedColors := .none }

def demoClock : HostClock := { timezoneOffset := 0, hour := 12 }

/-- Witness for `contextFingerprint_ignores_fingerprintFile` with a saved
state embedding a fingerprint. -/
theorem contextFingerprint_ignores_fingerprintFile_witness :
    googleSearchContextFingerprint none
        (.valid { fingerprint := some demoFingerprint }) none none demoClock
      = contextFingerprintOfConfig demoFingerprint :=
  (contextFingerprint_ignores_fingerprintFile none
    (some (encodeFingerprint demoFingerprint))
    (.valid { fingerprint := some demoFingerprint }) none none
    demoClock).2.1 demoFingerprint rfl

/-! ## Claim C10 — headless option ignored -/

/-- C10: for every `CommandOptions` value — including one with `headless`
explicitly set to `false` — the computed mode is headless and the first
`performSearch` invocation runs headless; a headed launch is reachable
only through the internal challenge escalation. -/
theorem headless_option_ignored (query : String) (options : CommandOptions)
    (provided : Bool) (env envEscal : RunEnv) :
    useHeadlessOf options = true
    ∧ useHeadlessOf { options with headless := some false } = true
    ∧ googleSearchRun query options provided env envEscal
        = performSearchRun (reqOf query options) true provided env envEscal
    ∧ (googleSearchRun query options provided env envEscal).2.headedLaunches
        ≤ (googleSearchRun query options provided env
            envEscal).2.escalations :=
  ⟨rfl, rfl, rfl,
    headless_run_headed_le (reqOf query options) provided env envEscal⟩

end GoogleSearchMcp
